import Mathlib

/-!
Verification of the daydreamer repository against its specification.

Part 1 embeds the web application's client-side stores
(src/web_app/src/stores/chatStore.ts, src/web_app/src/stores/themeStore.ts)
and the Layout component's theme cycling
(src/web_app/src/components/Layout.tsx).

Part 2 models the cognitive-mode scheduling core (Driver/Scheduler,
Memory Curator, Intrusive Thought Generator) from the specification:
that core is documented in the repository (DMN_README.md, the architecture
documents) but its implementation files are not present, so the
definitions are modelled from the spec's words and marked as such.

JavaScript numbers that only travel through the state (timing metadata)
are modelled as integers; they are never computed on.
-/

namespace WebApp

/-- Theme as in src/web_app/src/stores/themeStore.ts:
type Theme = 'light' | 'dark' | 'system'. -/
inductive Theme where
  | light
  | dark
  | system
  deriving DecidableEq, BEq, Repr

/-- The theme list of Layout.tsx cycleTheme:
const themes = ['light', 'dark', 'system']. -/
def themes : List Theme := [Theme.light, Theme.dark, Theme.system]

/-- Layout.tsx cycleTheme: currentIndex = themes.indexOf(theme);
nextIndex = (currentIndex + 1) % themes.length; setTheme(themes[nextIndex]).
`List.getD` plays the role of the always-in-range JS index. -/
def cycleTheme (theme : Theme) : Theme :=
  themes.getD ((themes.indexOf theme + 1) % themes.length) theme

/-- Message as in chatStore.ts: id, content, role ('user' | 'assistant'),
timestamp, optional thinkingTime/daydreamTime. -/
structure Message where
  id : String
  content : String
  role : String
  timestamp : String
  thinkingTime : Option Int
  daydreamTime : Option Int
  deriving DecidableEq, Repr

/-- Conversation as in chatStore.ts. -/
structure Conversation where
  id : String
  title : String
  messages : List Message
  createdAt : String
  updatedAt : String
  deriving DecidableEq, Repr

/-- The chat store's state slice touched by the actions under study. -/
structure ChatState where
  conversations : List Conversation
  currentConversationId : Option String
  isLoading : Bool
  error : Option String
  deriving DecidableEq, Repr

/-- The caller-supplied part of a message for addMessage
(Omit of Message over id and timestamp). -/
structure MessageInput where
  content : String
  role : String
  thinkingTime : Option Int
  daydreamTime : Option Int
  deriving DecidableEq, Repr

/-- chatStore.ts addMessage. The environment-supplied values are explicit
arguments: newId for crypto.randomUUID(), ts1 for the new Date().toISOString()
taken for the message, ts2 for the one taken for updatedAt. -/
def addMessage (s : ChatState) (conversationId : String) (m : MessageInput)
    (newId ts1 ts2 : String) : ChatState :=
  let newMessage : Message :=
    { id := newId, content := m.content, role := m.role, timestamp := ts1,
      thinkingTime := m.thinkingTime, daydreamTime := m.daydreamTime }
  { s with
    conversations := s.conversations.map fun conv =>
      if conv.id = conversationId then
        { conv with
          messages := conv.messages ++ [newMessage],
          updatedAt := ts2,
          title :=
            if conv.messages.length = 0 then m.content.take 50 ++ "..."
            else conv.title }
      else conv }

/-- chatStore.ts deleteConversation. The JS expression
newConversations[0]?.id || null is modelled faithfully: || treats the
empty string as falsy, so an empty-string id collapses to null. -/
def deleteConversation (s : ChatState) (conversationId : String) : ChatState :=
  let newConversations := s.conversations.filter fun conv => conv.id ≠ conversationId
  let newCurrentId : Option String :=
    if s.currentConversationId = some conversationId then
      match newConversations.head? with
      | some c => if c.id = "" then none else some c.id
      | none => none
    else s.currentConversationId
  { s with
    conversations := newConversations,
    currentConversationId := newCurrentId }

/-- Concrete conversation used to exhibit the empty-string-id corner of
deleteConversation. -/
def cexConvEmpty : Conversation :=
  { id := "", title := "b", messages := [], createdAt := "t0", updatedAt := "t0" }

/-- Concrete conversation with id x. -/
def cexConvX : Conversation :=
  { id := "x", title := "a", messages := [], createdAt := "t0", updatedAt := "t0" }

/-- Concrete conversation with id y. -/
def cexConvY : Conversation :=
  { id := "y", title := "c", messages := [], createdAt := "t0", updatedAt := "t0" }

/-- Chat state whose second conversation has the empty string as id. -/
def cexState : ChatState :=
  { conversations := [cexConvX, cexConvEmpty],
    currentConversationId := some "x", isLoading := false, error := none }

/-- Chat state with two ordinarily named conversations. -/
def cexState2 : ChatState :=
  { conversations := [cexConvX, cexConvY],
    currentConversationId := some "x", isLoading := false, error := none }

/-- Concrete caller-supplied message used to exercise addMessage. -/
def cexMsgIn : MessageInput :=
  { content := "hello", role := "user", thinkingTime := none, daydreamTime := none }

end WebApp

namespace DMN

/-- Modelled from the spec: CognitiveMode, exactly one of ACTIVE, PARTIAL_WAKE,
DEFAULT; the implementation of the cognitive core is absent from the
repository's source files, so the whole DMN namespace is modelled from the
specification's words. -/
inductive CognitiveMode where
  | ACTIVE
  | PARTIAL_WAKE
  | DEFAULT
  deriving DecidableEq, Repr

/-- Modelled from the spec: the seven IntrusiveThought source types. -/
inductive SourceType where
  | random
  | worry
  | creative
  | philosophical
  | absurd
  | memoryDerived
  | sensory
  deriving DecidableEq, Repr

/-- Modelled from the spec: IntrusiveThought with id, content, intensity,
difficulty, createdAt, suppressed flag and sourceType. -/
structure IntrusiveThought where
  id : Nat
  content : String
  intensity : Nat
  difficulty : Nat
  createdAt : Nat
  suppressed : Bool
  sourceType : SourceType
  deriving DecidableEq, Repr

/-- Modelled from the spec: MemoryEntry; the float importance is modelled as
an integer score, timestamps as naturals. -/
structure MemoryEntry where
  id : Nat
  content : String
  indexKey : Nat
  createdAt : Nat
  lastAccessedAt : Nat
  accessCount : Nat
  importance : Int
  tags : List String
  deriving DecidableEq, Repr

/-- Modelled from the spec: ModeTransitionEvent, an append-only log entry. -/
structure ModeTransitionEvent where
  fromMode : CognitiveMode
  toMode : CognitiveMode
  triggerReason : String
  timestamp : Nat
  deriving DecidableEq, Repr

/-- Modelled from the spec: one WorkingContent chunk; injected intrusive
thoughts carry their originating thought id. -/
structure WorkingChunk where
  text : String
  sourceThoughtId : Option Nat
  deriving DecidableEq, Repr

/-- Modelled from the spec: the error taxonomy of section 7. -/
inductive CoreError where
  | ModeViolationError
  | GenerationTimeoutError
  | GenerationFailure
  | CapacityError
  deriving DecidableEq, Repr

/-- Modelled from the spec: the downstream subsystems whose failures the
Driver isolates. -/
inductive Subsystem where
  | synthesizer
  | curator
  deriving DecidableEq, Repr

/-- Modelled from the spec: the configurable policies of the Driver. -/
structure Config where
  pressureThreshold : Nat
  breakDuration : Nat
  consolidationCadence : Nat
  deriving DecidableEq, Repr

/-- Modelled from the spec: the Driver's owned state; mode, working content,
the intrusion queue drained at cycle start, the never-deleted thought audit
log, the memory store, the append-only transition event log, the pressure and
break counters and the per-subsystem consecutive-failure counters. -/
structure DriverState where
  mode : CognitiveMode
  workingContent : List WorkingChunk
  breakBuffer : List String
  pendingThoughts : List IntrusiveThought
  auditLog : List IntrusiveThought
  nextThoughtId : Nat
  memory : List MemoryEntry
  nextMemoryId : Nat
  consolidationQueue : List String
  eventLog : List ModeTransitionEvent
  cycleCount : Nat
  activeCyclesSinceBreak : Nat
  breakCyclesRemaining : Nat
  synthFailStreak : Nat
  curatorFailStreak : Nat
  failureLog : List (Nat × Subsystem)
  fatalAlerts : List Subsystem
  clock : Nat
  deriving DecidableEq, Repr

/-- Modelled from the spec: the initial Driver state, mode ACTIVE, everything
else empty. -/
def initState : DriverState :=
  { mode := CognitiveMode.ACTIVE, workingContent := [], breakBuffer := [],
    pendingThoughts := [], auditLog := [], nextThoughtId := 0,
    memory := [], nextMemoryId := 0, consolidationQueue := [], eventLog := [],
    cycleCount := 0, activeCyclesSinceBreak := 0, breakCyclesRemaining := 0,
    synthFailStreak := 0, curatorFailStreak := 0, failureLog := [],
    fatalAlerts := [], clock := 0 }

/-- Modelled from the spec: transition(), the single mutator of the mode; a
ModeTransitionEvent is appended on every call, even when the destination
revisits an earlier mode. -/
def transition (s : DriverState) (toMode : CognitiveMode) (reason : String) :
    DriverState :=
  { s with
    mode := toMode,
    eventLog := s.eventLog ++
      [{ fromMode := s.mode, toMode := toMode, triggerReason := reason,
         timestamp := s.clock }] }

/-- Whether an Except value is a success. -/
def exceptOk {ε α : Type} : Except ε α → Bool
  | Except.ok _ => true
  | Except.error _ => false

/-- Modelled from the spec: scratchpad (WorkingContent) writes are permitted
only in ACTIVE; anywhere else the write fails with ModeViolationError and the
state is unchanged. -/
def scratchpadWrite (s : DriverState) (c : WorkingChunk) :
    DriverState × Except CoreError Unit :=
  if s.mode = CognitiveMode.ACTIVE then
    ({ s with workingContent := s.workingContent ++ [c] }, Except.ok ())
  else (s, Except.error CoreError.ModeViolationError)

/-- Modelled from the spec: the four retrieval strategies of the Curator. -/
inductive RetrievalStrategy where
  | semantic
  | recency
  | importance
  | creativeRandom
  deriving DecidableEq, Repr

/-- Modelled from the spec: importance update on access, a configurable blend
modelled as a unit increment. -/
def importanceOnAccess (imp : Int) : Int := imp + 1

/-- Modelled from the spec: the three fields a retrieval may update. -/
def touchEntry (now : Nat) (e : MemoryEntry) : MemoryEntry :=
  { e with lastAccessedAt := now, accessCount := e.accessCount + 1,
           importance := importanceOnAccess e.importance }

/-- Insertion step of the retrieval-ordering sort. -/
def insertEntryBy (le : MemoryEntry → MemoryEntry → Bool) (e : MemoryEntry) :
    List MemoryEntry → List MemoryEntry
  | [] => [e]
  | x :: xs => if le e x then e :: x :: xs else x :: insertEntryBy le e xs

/-- Insertion sort used to model the strategy orderings. -/
def sortEntriesBy (le : MemoryEntry → MemoryEntry → Bool) :
    List MemoryEntry → List MemoryEntry
  | [] => []
  | x :: xs => insertEntryBy le x (sortEntriesBy le xs)

/-- Modelled from the spec: strategy-directed selection; semantic matches
content or tags, recency sorts by lastAccessedAt, importance by importance,
creative-random biases toward low access counts. -/
def selectEntries (strategy : RetrievalStrategy) (query : String) (k : Nat)
    (mem : List MemoryEntry) : List MemoryEntry :=
  match strategy with
  | RetrievalStrategy.semantic =>
      (mem.filter fun e => e.content = query || e.tags.contains query).take k
  | RetrievalStrategy.recency =>
      (sortEntriesBy (fun a b => b.lastAccessedAt ≤ a.lastAccessedAt) mem).take k
  | RetrievalStrategy.importance =>
      (sortEntriesBy (fun a b => b.importance ≤ a.importance) mem).take k
  | RetrievalStrategy.creativeRandom =>
      (sortEntriesBy (fun a b => a.accessCount ≤ b.accessCount) mem).take k

/-- Modelled from the spec: Curator retrieve; memory reads are enabled in
ACTIVE and PARTIAL_WAKE and disabled in DEFAULT; retrieval touches only
lastAccessedAt, accessCount and importance of the selected entries. -/
def retrieve (s : DriverState) (strategy : RetrievalStrategy) (query : String)
    (k : Nat) : DriverState × Except CoreError (List MemoryEntry) :=
  if s.mode = CognitiveMode.DEFAULT then
    (s, Except.error CoreError.ModeViolationError)
  else
    let selectedIds := (selectEntries strategy query k s.memory).map (fun e => e.id)
    let updated := s.memory.map fun e =>
      if selectedIds.contains e.id then touchEntry s.clock e else e
    ({ s with memory := updated },
     Except.ok (updated.filter fun e => selectedIds.contains e.id))

/-- Modelled from the spec: a freshly consolidated MemoryEntry. -/
def freshEntry (nid : Nat) (c : String) (now : Nat) : MemoryEntry :=
  { id := nid, content := c, indexKey := nid, createdAt := now,
    lastAccessedAt := now, accessCount := 0, importance := 1,
    tags := ["consolidated"] }

/-- Modelled from the spec: consolidation of one candidate; a near-identical
(here: identical-content) existing entry is merged by an importance bump,
otherwise a fresh entry is persisted. The accumulator also collects the
created entries. -/
def consolidateOne (now : Nat) (acc : List MemoryEntry × Nat × List MemoryEntry)
    (c : String) : List MemoryEntry × Nat × List MemoryEntry :=
  let mem := acc.1
  let nid := acc.2.1
  let created := acc.2.2
  if mem.any fun e => e.content = c then
    (mem.map fun e =>
       if e.content = c then { e with importance := e.importance + 1 } else e,
     nid, created)
  else
    (mem ++ [freshEntry nid c now], nid + 1, created ++ [freshEntry nid c now])

/-- Modelled from the spec: Curator consolidate(candidates), only callable in
DEFAULT; outside DEFAULT it fails with ModeViolationError and the state is
returned untouched, never a silent no-op. -/
def consolidate (s : DriverState) (candidates : List String) :
    DriverState × Except CoreError (List MemoryEntry) :=
  if s.mode = CognitiveMode.DEFAULT then
    let r := candidates.foldl (consolidateOne s.clock)
      (s.memory, s.nextMemoryId, [])
    ({ s with memory := r.1, nextMemoryId := r.2.1 }, Except.ok r.2.2)
  else (s, Except.error CoreError.ModeViolationError)

/-- Modelled from the spec: the generator-supplied parameters of a new
intrusive thought. -/
structure ThoughtSpec where
  content : String
  intensity : Nat
  difficulty : Nat
  sourceType : SourceType
  deriving DecidableEq, Repr

/-- Modelled from the spec: creation of an IntrusiveThought with a fresh id;
the thought enters both the pending queue and the never-deleted audit log. -/
def enqueueThought (s : DriverState) (spec : ThoughtSpec) : DriverState :=
  let t : IntrusiveThought :=
    { id := s.nextThoughtId, content := spec.content,
      intensity := spec.intensity, difficulty := spec.difficulty,
      createdAt := s.clock, suppressed := false, sourceType := spec.sourceType }
  { s with pendingThoughts := s.pendingThoughts ++ [t],
           auditLog := s.auditLog ++ [t],
           nextThoughtId := s.nextThoughtId + 1 }

/-- Modelled from the spec: addExternalIntrusiveThought, permitted in every
mode. -/
def addExternalIntrusiveThought (s : DriverState) (content : String)
    (intensity : Nat) : DriverState :=
  enqueueThought s
    { content := content, intensity := intensity, difficulty := 5,
      sourceType := SourceType.random }

/-- Marks one thought suppressed, by id. -/
def setSuppressed (tid : Nat) (t : IntrusiveThought) : IntrusiveThought :=
  if t.id = tid then { t with suppressed := true } else t

/-- Modelled from the spec: suppress(thoughtId); the thought is marked
suppressed wherever it is recorded and is never deleted. -/
def suppress (s : DriverState) (tid : Nat) : DriverState :=
  { s with pendingThoughts := s.pendingThoughts.map (setSuppressed tid),
           auditLog := s.auditLog.map (setSuppressed tid) }

/-- Modelled from the spec: the immutable snapshot returned by
getCurrentContext(). -/
structure ContextSnapshot where
  mode : CognitiveMode
  workingContent : List WorkingChunk
  pendingThoughtCount : Nat
  deriving DecidableEq, Repr

/-- Modelled from the spec: getCurrentContext(), side-effect free; the state
component of the result is the unchanged input state. -/
def getCurrentContext (s : DriverState) : DriverState × ContextSnapshot :=
  (s, { mode := s.mode, workingContent := s.workingContent,
        pendingThoughtCount := s.pendingThoughts.length })

/-- Modelled from the spec: everything the environment feeds one cycle —
external thought arrivals queued since the last cycle, the injectable random
draw of the Intrusive Thought Generator, the generation backend's behaviour
for the Synthesizer and the Curator, and the break fragment produced by the
Brain-Break Manager. -/
structure CycleEnv where
  external : List (String × Nat)
  generated : Option ThoughtSpec
  synthFails : Bool
  synthOutput : String
  curatorFails : Bool
  breakFragment : String
  deriving DecidableEq, Repr

/-- Cycle bookkeeping: the clock and cycle counter advance, the pressure
signal counts active-mode cycles since the last break, and the break counter
runs down during PARTIAL_WAKE. -/
def tickPhase (s : DriverState) : DriverState :=
  { s with
    clock := s.clock + 1,
    cycleCount := s.cycleCount + 1,
    activeCyclesSinceBreak :=
      if s.mode = CognitiveMode.ACTIVE then s.activeCyclesSinceBreak + 1
      else s.activeCyclesSinceBreak,
    breakCyclesRemaining :=
      if s.mode = CognitiveMode.PARTIAL_WAKE then s.breakCyclesRemaining - 1
      else s.breakCyclesRemaining }

/-- Arrivals are drained into the pending queue at cycle start, and the
generator may add one spontaneous thought, independent of mode. -/
def enqueuePhase (env : CycleEnv) (s : DriverState) : DriverState :=
  let s1 := env.external.foldl
    (fun st p => addExternalIntrusiveThought st p.1 p.2) s
  match env.generated with
  | some spec => enqueueThought s1 spec
  | none => s1

/-- In ACTIVE the unsuppressed pending thoughts are injected into
WorkingContent, tagged with their thought id, and the queue is drained;
suppressed thoughts are dropped from the queue without injection (they stay
in the audit log). -/
def injectPhase (s : DriverState) : DriverState :=
  if s.mode = CognitiveMode.ACTIVE then
    { s with
      workingContent := s.workingContent ++
        ((s.pendingThoughts.filter fun t => !t.suppressed).map
          fun t => { text := t.content, sourceThoughtId := some t.id }),
      pendingThoughts := [] }
  else s

/-- Mode-appropriate subsystem work with failure isolation: a failing
Synthesizer or Curator is logged and skipped for the cycle, and its
consecutive-failure counter grows; a success resets the counter. In
PARTIAL_WAKE the Brain-Break Manager writes to the separate break buffer,
never to WorkingContent. -/
def workPhase (env : CycleEnv) (s : DriverState) : DriverState :=
  match s.mode with
  | CognitiveMode.ACTIVE =>
      if env.synthFails then
        { s with synthFailStreak := s.synthFailStreak + 1,
                 failureLog := s.failureLog ++ [(s.cycleCount, Subsystem.synthesizer)] }
      else
        { s with synthFailStreak := 0,
                 workingContent := s.workingContent ++
                   [{ text := env.synthOutput, sourceThoughtId := none }] }
  | CognitiveMode.PARTIAL_WAKE =>
      if env.synthFails then
        { s with synthFailStreak := s.synthFailStreak + 1,
                 failureLog := s.failureLog ++ [(s.cycleCount, Subsystem.synthesizer)],
                 breakBuffer := s.breakBuffer ++ [env.breakFragment] }
      else
        { s with synthFailStreak := 0,
                 consolidationQueue := s.consolidationQueue ++ [env.synthOutput],
                 breakBuffer := s.breakBuffer ++ [env.breakFragment] }
  | CognitiveMode.DEFAULT =>
      if env.curatorFails then
        { s with curatorFailStreak := s.curatorFailStreak + 1,
                 failureLog := s.failureLog ++ [(s.cycleCount, Subsystem.curator)] }
      else
        { (consolidate s s.consolidationQueue).1 with
          curatorFailStreak := 0, consolidationQueue := [] }

/-- Transition policy, every edge through transition(): three consecutive
Synthesizer failures force DEFAULT with a fatal alert; three consecutive
Curator failures keep the fail-safe DEFAULT and raise the alert; otherwise
the consolidation cadence forces ACTIVE into DEFAULT, exhaustion pressure
sends ACTIVE to PARTIAL_WAKE, an elapsed break returns to ACTIVE, and a
DEFAULT consolidation cycle returns to ACTIVE. -/
def decidePhase (cfg : Config) (s : DriverState) : DriverState :=
  if s.mode ≠ CognitiveMode.DEFAULT ∧ 3 ≤ s.synthFailStreak then
    transition { s with fatalAlerts := s.fatalAlerts ++ [Subsystem.synthesizer] }
      CognitiveMode.DEFAULT "fatal-synthesizer-failures"
  else if s.mode = CognitiveMode.DEFAULT ∧ 3 ≤ s.curatorFailStreak then
    { s with fatalAlerts := s.fatalAlerts ++ [Subsystem.curator] }
  else if s.mode = CognitiveMode.ACTIVE ∧
      s.cycleCount % cfg.consolidationCadence = 0 then
    transition s CognitiveMode.DEFAULT "consolidation-cadence"
  else if s.mode = CognitiveMode.ACTIVE ∧
      cfg.pressureThreshold < s.activeCyclesSinceBreak then
    transition { s with activeCyclesSinceBreak := 0,
                        breakCyclesRemaining := cfg.breakDuration }
      CognitiveMode.PARTIAL_WAKE "exhaustion-pressure"
  else if s.mode = CognitiveMode.PARTIAL_WAKE ∧ s.breakCyclesRemaining = 0 then
    transition { s with breakBuffer := [] } CognitiveMode.ACTIVE "break-complete"
  else if s.mode = CognitiveMode.DEFAULT then
    transition s CognitiveMode.ACTIVE "consolidation-complete"
  else s

/-- Modelled from the spec: runCycle(), one pass of the Driver's cycle loop. -/
def runCycle (cfg : Config) (env : CycleEnv) (s : DriverState) : DriverState :=
  decidePhase cfg (workPhase env (injectPhase (enqueuePhase env (tickPhase s))))

/-- A finite sequence of cycles. -/
def runCycles (cfg : Config) (envs : List CycleEnv) (s : DriverState) :
    DriverState :=
  envs.foldl (fun st e => runCycle cfg e st) s

/-- The trace of states along an infinite environment schedule. -/
def trace (cfg : Config) (envs : Nat → CycleEnv) (s0 : DriverState) :
    Nat → DriverState
  | 0 => s0
  | n + 1 => runCycle cfg (envs n) (trace cfg envs s0 n)

/-- How many of the first n cycles changed the mode. -/
def modeChanges (cfg : Config) (envs : Nat → CycleEnv) (s0 : DriverState) :
    Nat → Nat
  | 0 => 0
  | n + 1 => modeChanges cfg envs s0 n +
      (if (trace cfg envs s0 (n + 1)).mode ≠ (trace cfg envs s0 n).mode
       then 1 else 0)

/-- The ids runCycle will inject into WorkingContent this cycle: the
unsuppressed pending thoughts after the cycle-start drain, and only in
ACTIVE. -/
def injectedIds (env : CycleEnv) (s : DriverState) : List Nat :=
  if s.mode = CognitiveMode.ACTIVE then
    ((enqueuePhase env (tickPhase s)).pendingThoughts.filter
      fun t => !t.suppressed).map fun t => t.id
  else []

/-- Well-formed id supply: every recorded thought id is below the fresh-id
counter. -/
def wfIds (s : DriverState) : Prop :=
  (∀ t ∈ s.pendingThoughts, t.id < s.nextThoughtId) ∧
  (∀ t ∈ s.auditLog, t.id < s.nextThoughtId)

instance (s : DriverState) : Decidable (wfIds s) := by
  unfold wfIds; infer_instance

/-- The arguments of one retrieval call. -/
structure RetrieveArgs where
  strategy : RetrievalStrategy
  query : String
  k : Nat
  deriving DecidableEq, Repr

/-- The state after one retrieval call. -/
def retrieveRun (s : DriverState) (a : RetrieveArgs) : DriverState :=
  (retrieve s a.strategy a.query a.k).1

/-- The state after a sequence of retrieval calls. -/
def retrieves (s : DriverState) (args : List RetrieveArgs) : DriverState :=
  args.foldl retrieveRun s

/-- The state with the thought queue, audit log and id counter blanked; used
to transport all other fields through thought-creating operations at once. -/
def sansThoughts (st : DriverState) : DriverState :=
  { st with pendingThoughts := [], auditLog := [], nextThoughtId := 0 }

/-- The suppression invariant for thought id tid: the id supply is
well-formed and ahead of tid, every pending thought with that id is marked
suppressed, and the audit log still holds the thought, marked suppressed. -/
def suppressedInv (tid : Nat) (s : DriverState) : Prop :=
  wfIds s ∧ tid < s.nextThoughtId ∧
  (∀ t ∈ s.pendingThoughts, t.id = tid → t.suppressed = true) ∧
  (∃ t ∈ s.auditLog, t.id = tid ∧ t.suppressed = true)

/-- The write-once part of a MemoryEntry: everything except the three fields
a retrieval may touch (lastAccessedAt, accessCount, importance). -/
def SameIdentity (e e' : MemoryEntry) : Prop :=
  e'.id = e.id ∧ e'.content = e.content ∧ e'.createdAt = e.createdAt ∧
  e'.tags = e.tags ∧ e'.indexKey = e.indexKey

instance (e e' : MemoryEntry) : Decidable (SameIdentity e e') := by
  unfold SameIdentity; infer_instance

/-- A concrete retrieval request for witnesses. -/
def dmnArgs : RetrieveArgs :=
  { strategy := RetrievalStrategy.semantic, query := "the sky is blue", k := 1 }

/-- A concrete configuration for witnesses. -/
def dmnConfig : Config :=
  { pressureThreshold := 3, breakDuration := 2, consolidationCadence := 5 }

/-- A benign concrete cycle environment. -/
def dmnEnv : CycleEnv :=
  { external := [], generated := none, synthFails := false,
    synthOutput := "insight", curatorFails := false, breakFragment := "walk" }

/-- A cycle environment whose Synthesizer backend throws. -/
def dmnEnvFail : CycleEnv :=
  { external := [], generated := none, synthFails := true,
    synthOutput := "insight", curatorFails := false, breakFragment := "walk" }

/-- A concrete intrusive thought for witnesses. -/
def dmnThought : IntrusiveThought :=
  { id := 0, content := "spider", intensity := 9, difficulty := 3,
    createdAt := 0, suppressed := false, sourceType := SourceType.worry }

/-- A concrete state holding one pending, not yet suppressed thought. -/
def dmnStateWithThought : DriverState :=
  { initState with pendingThoughts := [dmnThought], auditLog := [dmnThought],
                   nextThoughtId := 1 }

/-- A concrete memory entry for witnesses. -/
def dmnEntry : MemoryEntry :=
  { id := 0, content := "the sky is blue", indexKey := 0, createdAt := 0,
    lastAccessedAt := 0, accessCount := 0, importance := 1, tags := ["sky"] }

/-- A concrete state holding one memory entry. -/
def dmnStateWithMemory : DriverState :=
  { initState with memory := [dmnEntry], nextMemoryId := 1 }

end DMN

section WebAppTheorems

open WebApp

/-- List.getD over a map, in-range case. -/
theorem getD_map_of_lt {α β : Type} (f : α → β) (l : List α) :
    ∀ (k : Nat), k < l.length → ∀ (d : β) (d' : α),
      (l.map f).getD k d = f (l.getD k d') := by
  induction l with
  | nil => intro k h; simp at h
  | cons a t ih =>
    intro k h d d'
    cases k with
    | zero => rfl
    | succ k => exact ih k (by simpa using h) d d'

/-- List.getD over a map, out-of-range case. -/
theorem getD_map_of_ge {α β : Type} (f : α → β) (l : List α) :
    ∀ (k : Nat), l.length ≤ k → ∀ (d : β), (l.map f).getD k d = d := by
  induction l with
  | nil => intro k _ d; cases k <;> rfl
  | cons a t ih =>
    intro k h d
    cases k with
    | zero => simp at h
    | succ k => exact ih k (by simpa using h) d

/-- List.getD out-of-range gives the fallback. -/
theorem getD_of_ge {α : Type} (l : List α) :
    ∀ (k : Nat), l.length ≤ k → ∀ (d : α), l.getD k d = d := by
  induction l with
  | nil => intro k _ d; cases k <;> rfl
  | cons a t ih =>
    intro k h d
    cases k with
    | zero => simp at h
    | succ k => exact ih k (by simpa using h) d

/-- C8: one application of the Layout's cycleTheme maps light to dark, dark to
system and system to light, so applying cycleTheme three times returns the
theme store to its starting theme. -/
theorem cycleTheme_three_is_id :
    cycleTheme Theme.light = Theme.dark ∧
    cycleTheme Theme.dark = Theme.system ∧
    cycleTheme Theme.system = Theme.light ∧
    ∀ t : Theme, cycleTheme (cycleTheme (cycleTheme t)) = t := by
  refine ⟨rfl, rfl, rfl, fun t => ?_⟩
  cases t <;> rfl

/-- Mapping a guarded rewrite over a list where no element satisfies the guard
is the identity. -/
theorem map_ite_eq_self {α : Type} (p : α → Prop) [DecidablePred p] (g : α → α)
    (l : List α) (h : ∀ a ∈ l, ¬ p a) :
    (l.map fun a => if p a then g a else a) = l := by
  induction l with
  | nil => rfl
  | cons a t ih =>
    simp only [List.map_cons, if_neg (h a (List.mem_cons_self a t)),
      ih fun b hb => h b (List.mem_cons_of_mem a hb)]

/-- C9: addMessage appends exactly one message, carrying the supplied fresh id
and timestamp, to the conversation whose id equals conversationId and updates
that conversation's updatedAt; its title becomes the first 50 characters of the
content followed by three dots exactly when the conversation previously had
zero messages, and is unchanged otherwise; every conversation with a different
id is unchanged, and when no conversation has the id the whole state is
unchanged. -/
theorem addMessage_spec (s : ChatState) (cid : String) (m : MessageInput)
    (newId ts1 ts2 : String) :
    (addMessage s cid m newId ts1 ts2).conversations.length = s.conversations.length ∧
    (addMessage s cid m newId ts1 ts2).currentConversationId = s.currentConversationId ∧
    (addMessage s cid m newId ts1 ts2).isLoading = s.isLoading ∧
    (addMessage s cid m newId ts1 ts2).error = s.error ∧
    (∀ (k : Nat) (d : Conversation), (s.conversations.getD k d).id ≠ cid →
      (addMessage s cid m newId ts1 ts2).conversations.getD k d =
        s.conversations.getD k d) ∧
    (∀ (k : Nat) (d : Conversation), k < s.conversations.length →
      (s.conversations.getD k d).id = cid →
      ((addMessage s cid m newId ts1 ts2).conversations.getD k d).id =
          (s.conversations.getD k d).id ∧
      ((addMessage s cid m newId ts1 ts2).conversations.getD k d).createdAt =
          (s.conversations.getD k d).createdAt ∧
      ((addMessage s cid m newId ts1 ts2).conversations.getD k d).messages =
          (s.conversations.getD k d).messages ++
            [{ id := newId, content := m.content, role := m.role, timestamp := ts1,
               thinkingTime := m.thinkingTime, daydreamTime := m.daydreamTime }] ∧
      ((addMessage s cid m newId ts1 ts2).conversations.getD k d).updatedAt = ts2 ∧
      ((addMessage s cid m newId ts1 ts2).conversations.getD k d).title =
          (if (s.conversations.getD k d).messages.length = 0
           then m.content.take 50 ++ "..." else (s.conversations.getD k d).title)) ∧
    ((∀ conv ∈ s.conversations, conv.id ≠ cid) → addMessage s cid m newId ts1 ts2 = s) := by
  refine ⟨List.length_map _ _, rfl, rfl, rfl, ?_, ?_, ?_⟩
  · intro k d hne
    by_cases hk : k < s.conversations.length
    · rw [show (addMessage s cid m newId ts1 ts2).conversations =
            s.conversations.map _ from rfl, getD_map_of_lt _ _ k hk d d]
      simp only [if_neg hne]
    · rw [show (addMessage s cid m newId ts1 ts2).conversations =
            s.conversations.map _ from rfl,
          getD_map_of_ge _ _ k (Nat.le_of_not_lt hk) d,
          getD_of_ge _ k (Nat.le_of_not_lt hk) d]
  · intro k d hk hid
    rw [show (addMessage s cid m newId ts1 ts2).conversations =
          s.conversations.map _ from rfl, getD_map_of_lt _ _ k hk d d]
    rw [if_pos hid]
    exact ⟨rfl, rfl, rfl, rfl, rfl⟩
  · intro h
    have hconvs : (addMessage s cid m newId ts1 ts2).conversations = s.conversations := by
      have hm := map_ite_eq_self (fun conv : Conversation => conv.id = cid)
        (fun conv =>
          { conv with
            messages := conv.messages ++
              [{ id := newId, content := m.content, role := m.role, timestamp := ts1,
                 thinkingTime := m.thinkingTime, daydreamTime := m.daydreamTime }],
            updatedAt := ts2,
            title :=
              if conv.messages.length = 0 then m.content.take 50 ++ "..."
              else conv.title })
        s.conversations h
      exact hm
    calc addMessage s cid m newId ts1 ts2
        = { s with conversations := (addMessage s cid m newId ts1 ts2).conversations } := rfl
      _ = { s with conversations := s.conversations } := by rw [hconvs]
      _ = s := rfl

set_option maxRecDepth 8000 in
/-- Witness for C9 at a concrete chat state: the untouched conversation is
unchanged and the addressed conversation gains exactly the new message and
the dotted title. -/
theorem addMessage_spec_witness :
    (addMessage cexState2 "x" cexMsgIn "m1" "T1" "T2").conversations.getD 1 cexConvX =
      cexConvY ∧
    ((addMessage cexState2 "x" cexMsgIn "m1" "T1" "T2").conversations.getD 0 cexConvX).messages =
      [{ id := "m1", content := "hello", role := "user", timestamp := "T1",
         thinkingTime := none, daydreamTime := none }] ∧
    ((addMessage cexState2 "x" cexMsgIn "m1" "T1" "T2").conversations.getD 0 cexConvX).title =
      "hello..." := by
  have h := addMessage_spec cexState2 "x" cexMsgIn "m1" "T1" "T2"
  refine ⟨?_, ?_, ?_⟩
  · rw [h.2.2.2.2.1 1 cexConvX (by decide)]; rfl
  · rw [(h.2.2.2.2.2.1 0 cexConvX (by decide) (by decide)).2.2.1]; decide
  · rw [(h.2.2.2.2.2.1 0 cexConvX (by decide) (by decide)).2.2.2.2]; decide

/-- C10 fails as stated: deleting the current conversation when the first
remaining conversation has the empty string as id sets currentConversationId
to null, not to that id, because the JS expression id || null treats the empty
string as falsy. -/
theorem deleteConversation_counterexample :
    (deleteConversation cexState "x").conversations = [cexConvEmpty] ∧
    cexConvEmpty.id = "" ∧
    (deleteConversation cexState "x").currentConversationId = none ∧
    (deleteConversation cexState "x").currentConversationId ≠ some cexConvEmpty.id := by
  exact ⟨rfl, rfl, rfl, by decide⟩

/-- C10 amended: deleteConversation removes exactly the conversations whose id
equals conversationId and leaves all others unchanged; afterwards, when the
deleted conversation was the current one, currentConversationId is the id of
the first remaining conversation when that id is a non-empty string, and null
when no conversations remain or when the first remaining conversation's id is
the empty string; otherwise currentConversationId is unchanged. -/
theorem deleteConversation_spec (s : ChatState) (cid : String) :
    (∀ c ∈ (deleteConversation s cid).conversations, c.id ≠ cid) ∧
    (∀ c ∈ s.conversations, c.id ≠ cid → c ∈ (deleteConversation s cid).conversations) ∧
    (deleteConversation s cid).conversations.Sublist s.conversations ∧
    (deleteConversation s cid).isLoading = s.isLoading ∧
    (deleteConversation s cid).error = s.error ∧
    (s.currentConversationId ≠ some cid →
      (deleteConversation s cid).currentConversationId = s.currentConversationId) ∧
    (s.currentConversationId = some cid →
      ((deleteConversation s cid).conversations = [] →
        (deleteConversation s cid).currentConversationId = none) ∧
      (∀ c, (deleteConversation s cid).conversations.head? = some c →
        (deleteConversation s cid).currentConversationId =
          (if c.id = "" then none else some c.id))) := by
  refine ⟨?_, ?_, ?_, rfl, rfl, ?_, ?_⟩
  · intro c hc
    have := (List.mem_filter.mp hc).2
    simpa using this
  · intro c hc hne
    exact List.mem_filter.mpr ⟨hc, by simpa using hne⟩
  · exact List.filter_sublist _
  · intro h
    simp only [deleteConversation, if_neg h]
  · intro h
    constructor
    · intro hl
      have hh : (deleteConversation s cid).conversations.head? = none := by
        rw [hl]; rfl
      simp only [deleteConversation, if_pos h] at hh ⊢
      rw [show ((s.conversations.filter fun conv => decide (conv.id ≠ cid)).head?) = none
            from hh]
    · intro c hc
      simp only [deleteConversation, if_pos h] at hc ⊢
      rw [show ((s.conversations.filter fun conv => decide (conv.id ≠ cid)).head?) = some c
            from hc]

/-- Witness for the amended C10 at a concrete chat state: deleting the current
conversation hands currentConversationId to the first remaining conversation,
whose id is the non-empty string y. -/
theorem deleteConversation_spec_witness :
    cexState2.currentConversationId = some "x" ∧
    (deleteConversation cexState2 "x").currentConversationId = some "y" := by
  have h := deleteConversation_spec cexState2 "x"
  refine ⟨rfl, ?_⟩
  have h6 := (h.2.2.2.2.2.2 (by rfl)).2 cexConvY (by rfl)
  rw [h6]; decide

end WebAppTheorems

section DMNTheorems

open DMN

/-- C1: consolidate called while the mode is not DEFAULT fails with
ModeViolationError — never a silent no-op — and the memory store is unchanged:
no MemoryEntry is created and none is mutated; indeed the whole state is
untouched by the failed call. -/
theorem consolidate_mode_violation (s : DriverState) (candidates : List String)
    (h : s.mode ≠ CognitiveMode.DEFAULT) :
    (consolidate s candidates).2 = Except.error CoreError.ModeViolationError ∧
    (consolidate s candidates).1.memory = s.memory ∧
    (consolidate s candidates).1 = s := by
  unfold consolidate
  rw [if_neg h]
  exact ⟨rfl, rfl, rfl⟩

/-- Witness for C1 at the initial state, whose mode is ACTIVE. -/
theorem consolidate_mode_violation_witness :
    initState.mode ≠ CognitiveMode.DEFAULT ∧
    (consolidate initState ["idea"]).2 =
      Except.error CoreError.ModeViolationError ∧
    (consolidate initState ["idea"]).1.memory = initState.memory :=
  ⟨by decide, (consolidate_mode_violation initState ["idea"] (by decide)).1,
   (consolidate_mode_violation initState ["idea"] (by decide)).2.1⟩

/-- C2: the per-mode permission table and its centralization: scratchpad
writes succeed exactly in ACTIVE, memory writes (consolidation) succeed
exactly in DEFAULT, memory reads succeed exactly in ACTIVE and PARTIAL_WAKE;
no component operation changes the mode, and the Driver's transition() is the
single point that sets it. -/
theorem permission_table (s : DriverState) (c : WorkingChunk)
    (strategy : RetrievalStrategy) (query : String) (k : Nat)
    (candidates : List String) (content : String) (intensity tid : Nat) :
    (exceptOk (scratchpadWrite s c).2 = true ↔ s.mode = CognitiveMode.ACTIVE) ∧
    (exceptOk (consolidate s candidates).2 = true ↔
      s.mode = CognitiveMode.DEFAULT) ∧
    (exceptOk (retrieve s strategy query k).2 = true ↔
      (s.mode = CognitiveMode.ACTIVE ∨ s.mode = CognitiveMode.PARTIAL_WAKE)) ∧
    (scratchpadWrite s c).1.mode = s.mode ∧
    (consolidate s candidates).1.mode = s.mode ∧
    (retrieve s strategy query k).1.mode = s.mode ∧
    (addExternalIntrusiveThought s content intensity).mode = s.mode ∧
    (suppress s tid).mode = s.mode ∧
    (getCurrentContext s).1.mode = s.mode ∧
    (∀ (toMode : CognitiveMode) (reason : String),
      (transition s toMode reason).mode = toMode) := by
  cases hm : s.mode <;>
    simp [scratchpadWrite, consolidate, retrieve, addExternalIntrusiveThought,
      enqueueThought, suppress, getCurrentContext, transition, exceptOk, hm]

/-- C7: getCurrentContext is side-effect free and idempotent: it returns the
state unchanged, a second call on that state returns an equal snapshot, and
the snapshot is exactly mode, WorkingContent copy and pending intrusive
thought count. -/
theorem getCurrentContext_pure (s : DriverState) :
    (getCurrentContext s).1 = s ∧
    (getCurrentContext (getCurrentContext s).1).2 = (getCurrentContext s).2 ∧
    (getCurrentContext s).2.mode = s.mode ∧
    (getCurrentContext s).2.workingContent = s.workingContent ∧
    (getCurrentContext s).2.pendingThoughtCount = s.pendingThoughts.length :=
  ⟨rfl, rfl, rfl, rfl, rfl⟩

/-- Draining external arrivals changes only the thought queue, audit log and
id counter. -/
theorem sansThoughts_foldl_ext (l : List (String × Nat)) :
    ∀ s : DriverState,
      sansThoughts
          (l.foldl (fun st p => addExternalIntrusiveThought st p.1 p.2) s) =
        sansThoughts s := by
  induction l with
  | nil => intro s; rfl
  | cons p t ih =>
    intro s
    rw [List.foldl_cons, ih]
    rfl

/-- The enqueue phase changes only the thought queue, audit log and id
counter. -/
theorem enqueuePhase_sans (env : CycleEnv) (s : DriverState) :
    sansThoughts (enqueuePhase env s) = sansThoughts s := by
  unfold enqueuePhase
  cases env.generated with
  | none => exact sansThoughts_foldl_ext env.external s
  | some spec =>
    calc sansThoughts
          (enqueueThought
            (env.external.foldl
              (fun st p => addExternalIntrusiveThought st p.1 p.2) s)
            spec)
        = sansThoughts
            (env.external.foldl
              (fun st p => addExternalIntrusiveThought st p.1 p.2) s) := rfl
      _ = _ := sansThoughts_foldl_ext env.external s

/-- Mode preservation through the enqueue phase. -/
theorem enqueuePhase_mode (env : CycleEnv) (s : DriverState) :
    (enqueuePhase env s).mode = s.mode := by
  have h := congrArg DriverState.mode (enqueuePhase_sans env s)
  simpa [sansThoughts] using h

/-- Event-log preservation through the enqueue phase. -/
theorem enqueuePhase_eventLog (env : CycleEnv) (s : DriverState) :
    (enqueuePhase env s).eventLog = s.eventLog := by
  have h := congrArg DriverState.eventLog (enqueuePhase_sans env s)
  simpa [sansThoughts] using h

/-- Mode preservation through thought injection. -/
theorem injectPhase_mode (s : DriverState) : (injectPhase s).mode = s.mode := by
  unfold injectPhase; split <;> rfl

/-- Event-log preservation through thought injection. -/
theorem injectPhase_eventLog (s : DriverState) :
    (injectPhase s).eventLog = s.eventLog := by
  unfold injectPhase; split <;> rfl

/-- Mode preservation through subsystem work. -/
theorem workPhase_mode (env : CycleEnv) (s : DriverState) :
    (workPhase env s).mode = s.mode := by
  cases hm : s.mode <;>
    simp [workPhase, consolidate, hm] <;> split_ifs <;> rfl

/-- Event-log preservation through subsystem work. -/
theorem workPhase_eventLog (env : CycleEnv) (s : DriverState) :
    (workPhase env s).eventLog = s.eventLog := by
  cases hm : s.mode <;>
    simp [workPhase, consolidate, hm] <;> split_ifs <;> rfl

/-- The decide phase either keeps the mode and the event log, or changes the
mode and appends exactly one ModeTransitionEvent. -/
theorem decidePhase_cases (cfg : Config) (s : DriverState) :
    ((decidePhase cfg s).mode = s.mode ∧
      (decidePhase cfg s).eventLog = s.eventLog) ∨
    ((decidePhase cfg s).mode ≠ s.mode ∧
      (decidePhase cfg s).eventLog.length = s.eventLog.length + 1) := by
  unfold decidePhase
  split_ifs with h1 h2 h3 h4 h5 h6
  · exact Or.inr ⟨fun he => h1.1 he.symm, by simp [transition]⟩
  · exact Or.inl ⟨rfl, rfl⟩
  · exact Or.inr ⟨by simp [transition, h3.1], by simp [transition]⟩
  · exact Or.inr ⟨by simp [transition, h4.1], by simp [transition]⟩
  · exact Or.inr ⟨by simp [transition, h5.1], by simp [transition]⟩
  · exact Or.inr ⟨by simp [transition, h6], by simp [transition]⟩
  · exact Or.inl ⟨rfl, rfl⟩

/-- The decide phase appends exactly one ModeTransitionEvent when it changes
the mode and none otherwise. -/
theorem decidePhase_eventLog (cfg : Config) (s : DriverState) :
    (decidePhase cfg s).eventLog.length =
      s.eventLog.length +
        (if (decidePhase cfg s).mode ≠ s.mode then 1 else 0) := by
  rcases decidePhase_cases cfg s with ⟨hm, hl⟩ | ⟨hm, hl⟩
  · rw [hl, if_neg (not_not_intro hm)]
    rfl
  · rw [hl, if_pos hm]


/-- One cycle appends exactly one ModeTransitionEvent when it changes the
mode and none otherwise. -/
theorem runCycle_eventLog (cfg : Config) (env : CycleEnv) (s : DriverState) :
    (runCycle cfg env s).eventLog.length =
      s.eventLog.length +
        (if (runCycle cfg env s).mode ≠ s.mode then 1 else 0) := by
  have hm : (workPhase env (injectPhase (enqueuePhase env (tickPhase s)))).mode
      = s.mode := by
    rw [workPhase_mode, injectPhase_mode, enqueuePhase_mode]
    rfl
  have hl : (workPhase env (injectPhase (enqueuePhase env (tickPhase s)))).eventLog
      = s.eventLog := by
    rw [workPhase_eventLog, injectPhase_eventLog, enqueuePhase_eventLog]
    rfl

  have hd := decidePhase_eventLog cfg
    (workPhase env (injectPhase (enqueuePhase env (tickPhase s))))
  rw [hm, hl] at hd
  exact hd

/-- C3: along every runCycle sequence from the initial state the mode is
always one of ACTIVE, PARTIAL_WAKE and DEFAULT, and the append-only
ModeTransitionEvent log holds exactly one event per mode change — including
changes whose destination equals a previously visited mode — so its length
equals the number of mode changes. -/
theorem mode_loop_logging (cfg : Config) (envs : Nat → CycleEnv) (n : Nat) :
    ((trace cfg envs initState n).mode = CognitiveMode.ACTIVE ∨
     (trace cfg envs initState n).mode = CognitiveMode.PARTIAL_WAKE ∨
     (trace cfg envs initState n).mode = CognitiveMode.DEFAULT) ∧
    (trace cfg envs initState n).eventLog.length =
      modeChanges cfg envs initState n := by
  constructor
  · cases h : (trace cfg envs initState n).mode <;> simp
  · induction n with
    | zero => rfl
    | succ n ih =>
      have h := runCycle_eventLog cfg (envs n) (trace cfg envs initState n)
      calc (trace cfg envs initState (n + 1)).eventLog.length
          = (trace cfg envs initState n).eventLog.length +
              (if (trace cfg envs initState (n + 1)).mode ≠
                  (trace cfg envs initState n).mode then 1 else 0) := h
        _ = modeChanges cfg envs initState n +
              (if (trace cfg envs initState (n + 1)).mode ≠
                  (trace cfg envs initState n).mode then 1 else 0) := by rw [ih]
        _ = modeChanges cfg envs initState (n + 1) := rfl

/-- SameIdentity is reflexive. -/
theorem sameIdentity_refl (e : MemoryEntry) : SameIdentity e e :=
  ⟨rfl, rfl, rfl, rfl, rfl⟩

/-- SameIdentity chains. -/
theorem sameIdentity_trans {e e1 e2 : MemoryEntry}
    (h1 : SameIdentity e e1) (h2 : SameIdentity e1 e2) : SameIdentity e e2 :=
  ⟨h2.1.trans h1.1, h2.2.1.trans h1.2.1, h2.2.2.1.trans h1.2.2.1,
   h2.2.2.2.1.trans h1.2.2.2.1, h2.2.2.2.2.trans h1.2.2.2.2⟩

/-- Touching an entry on retrieval keeps its write-once part. -/
theorem sameIdentity_ite_touch (now : Nat) (p : MemoryEntry → Bool)
    (e : MemoryEntry) :
    SameIdentity e (if p e then touchEntry now e else e) := by
  by_cases hp : p e = true
  · simp [hp, touchEntry, SameIdentity]
  · simp [hp, SameIdentity]

/-- Bumping importance during deduplication keeps the write-once part. -/
theorem sameIdentity_ite_bump (c : String) (e : MemoryEntry) :
    SameIdentity e
      (if e.content = c then { e with importance := e.importance + 1 } else e) := by
  by_cases hp : e.content = c
  · simp [hp, SameIdentity]
  · simp [hp, SameIdentity]

/-- One retrieval call keeps every stored entry's write-once part. -/
theorem retrieveRun_preserves (s : DriverState) (a : RetrieveArgs)
    (e : MemoryEntry) (he : e ∈ s.memory) :
    ∃ e' ∈ (retrieveRun s a).memory, SameIdentity e e' := by
  by_cases h : s.mode = CognitiveMode.DEFAULT
  · have hs : retrieveRun s a = s := by
      unfold retrieveRun retrieve; rw [if_pos h]
    rw [hs]
    exact ⟨e, he, sameIdentity_refl e⟩
  · have hs : (retrieveRun s a).memory =
        s.memory.map fun x =>
          if ((selectEntries a.strategy a.query a.k s.memory).map
              (fun y => y.id)).contains x.id
          then touchEntry s.clock x else x := by
      unfold retrieveRun retrieve; rw [if_neg h]
    rw [hs]
    exact ⟨_, List.mem_map_of_mem _ he,
      sameIdentity_ite_touch s.clock
        (fun x =>
          ((selectEntries a.strategy a.query a.k s.memory).map
            (fun y => y.id)).contains x.id) e⟩

/-- A sequence of retrieval calls keeps every stored entry's write-once
part. -/
theorem retrieves_preserves (args : List RetrieveArgs) :
    ∀ (s : DriverState) (e : MemoryEntry), e ∈ s.memory →
      ∃ e' ∈ (retrieves s args).memory, SameIdentity e e' := by
  induction args with
  | nil => intro s e he; exact ⟨e, he, sameIdentity_refl e⟩
  | cons a t ih =>
    intro s e he
    obtain ⟨e1, he1, hid1⟩ := retrieveRun_preserves s a e he
    obtain ⟨e2, he2, hid2⟩ := ih (retrieveRun s a) e1 he1
    exact ⟨e2, he2, sameIdentity_trans hid1 hid2⟩

/-- Consolidation keeps every already-stored entry's write-once part. -/
theorem consolidateFoldl_preserves (now : Nat) (cands : List String) :
    ∀ (mem : List MemoryEntry) (nid : Nat) (created : List MemoryEntry)
      (e : MemoryEntry), e ∈ mem →
      ∃ e' ∈ (cands.foldl (consolidateOne now) (mem, nid, created)).1,
        SameIdentity e e' := by
  induction cands with
  | nil => intro mem nid created e he; exact ⟨e, he, sameIdentity_refl e⟩
  | cons c t ih =>
    intro mem nid created e he
    rw [List.foldl_cons]
    by_cases hc : (mem.any fun x => x.content = c) = true
    · have hstep : consolidateOne now (mem, nid, created) c =
          (mem.map fun x =>
            if x.content = c then { x with importance := x.importance + 1 }
            else x, nid, created) := by
        unfold consolidateOne; rw [if_pos hc]
      rw [hstep]
      obtain ⟨e2, he2, hid2⟩ :=
        ih _ nid created _ (List.mem_map_of_mem _ he)
      exact ⟨e2, he2, sameIdentity_trans (sameIdentity_ite_bump c e) hid2⟩
    · have hstep : consolidateOne now (mem, nid, created) c =
          (mem ++ [freshEntry nid c now], nid + 1,
           created ++ [freshEntry nid c now]) := by
        unfold consolidateOne; rw [if_neg hc]
      rw [hstep]
      exact ih _ (nid + 1) _ e (List.mem_append_left _ he)

/-- The consolidate operation keeps every already-stored entry's write-once
part. -/
theorem consolidate_preserves (s : DriverState) (cands : List String)
    (e : MemoryEntry) (he : e ∈ s.memory) :
    ∃ e' ∈ (consolidate s cands).1.memory, SameIdentity e e' := by
  unfold consolidate
  split_ifs with h
  · exact consolidateFoldl_preserves s.clock cands s.memory s.nextMemoryId [] e he
  · exact ⟨e, he, sameIdentity_refl e⟩

/-- Memory preservation through the enqueue phase. -/
theorem enqueuePhase_memory (env : CycleEnv) (s : DriverState) :
    (enqueuePhase env s).memory = s.memory := by
  have h := congrArg DriverState.memory (enqueuePhase_sans env s)
  simpa [sansThoughts] using h

/-- Memory preservation through thought injection. -/
theorem injectPhase_memory (s : DriverState) :
    (injectPhase s).memory = s.memory := by
  unfold injectPhase; split <;> rfl

/-- Subsystem work keeps every stored entry's write-once part. -/
theorem workPhase_memory_preserves (env : CycleEnv) (s : DriverState)
    (e : MemoryEntry) (he : e ∈ s.memory) :
    ∃ e' ∈ (workPhase env s).memory, SameIdentity e e' := by
  cases hm : s.mode with
  | ACTIVE =>
    simp only [workPhase, hm]
    split_ifs <;> exact ⟨e, he, sameIdentity_refl e⟩
  | PARTIAL_WAKE =>
    simp only [workPhase, hm]
    split_ifs <;> exact ⟨e, he, sameIdentity_refl e⟩
  | DEFAULT =>
    simp only [workPhase, hm]
    split_ifs with hf
    · exact ⟨e, he, sameIdentity_refl e⟩
    · exact consolidate_preserves s s.consolidationQueue e he

/-- The decide phase never touches the memory store. -/
theorem decidePhase_memory (cfg : Config) (s : DriverState) :
    (decidePhase cfg s).memory = s.memory := by
  unfold decidePhase; split_ifs <;> simp [transition]

/-- C4: a MemoryEntry's content is byte-identical to its value at creation
across any sequence of retrievals — a retrieval may update only
lastAccessedAt, accessCount and importance — and a full Driver cycle,
including Curator consolidation, never mutates the content, createdAt, tags
or index key of an existing entry. -/
theorem memory_content_immutable (s : DriverState) (e : MemoryEntry)
    (he : e ∈ s.memory) :
    (∀ args : List RetrieveArgs,
      ∃ e' ∈ (retrieves s args).memory, SameIdentity e e') ∧
    (∀ (cfg : Config) (env : CycleEnv),
      ∃ e' ∈ (runCycle cfg env s).memory, SameIdentity e e') := by
  constructor
  · intro args
    exact retrieves_preserves args s e he
  · intro cfg env
    have h1 : e ∈ (injectPhase (enqueuePhase env (tickPhase s))).memory := by
      rw [injectPhase_memory, enqueuePhase_memory]
      exact he
    obtain ⟨e1, he1, hid1⟩ :=
      workPhase_memory_preserves env (injectPhase (enqueuePhase env (tickPhase s))) e h1
    refine ⟨e1, ?_, hid1⟩
    show e1 ∈ (decidePhase cfg
      (workPhase env (injectPhase (enqueuePhase env (tickPhase s))))).memory
    rw [decidePhase_memory]
    exact he1

/-- Witness for C4 at a concrete one-entry store: a semantic retrieval and a
full cycle both keep the entry's write-once part. -/
theorem memory_content_immutable_witness :
    dmnEntry ∈ dmnStateWithMemory.memory ∧
    (∃ e' ∈ (retrieves dmnStateWithMemory [dmnArgs]).memory,
      SameIdentity dmnEntry e') ∧
    (∃ e' ∈ (runCycle dmnConfig dmnEnv dmnStateWithMemory).memory,
      SameIdentity dmnEntry e') := by
  have h := memory_content_immutable dmnStateWithMemory dmnEntry (by decide)
  exact ⟨by decide, h.1 [dmnArgs], h.2 dmnConfig dmnEnv⟩

/-- Consolidation never touches the thought queue, audit log or id counter. -/
theorem consolidate_thoughts (s : DriverState) (cands : List String) :
    (consolidate s cands).1.pendingThoughts = s.pendingThoughts ∧
    (consolidate s cands).1.auditLog = s.auditLog ∧
    (consolidate s cands).1.nextThoughtId = s.nextThoughtId := by
  unfold consolidate; split_ifs <;> exact ⟨rfl, rfl, rfl⟩

/-- Subsystem work never touches the thought queue, audit log or id
counter. -/
theorem workPhase_thoughts (env : CycleEnv) (s : DriverState) :
    (workPhase env s).pendingThoughts = s.pendingThoughts ∧
    (workPhase env s).auditLog = s.auditLog ∧
    (workPhase env s).nextThoughtId = s.nextThoughtId := by
  cases hm : s.mode with
  | ACTIVE => simp only [workPhase, hm]; split_ifs <;> exact ⟨rfl, rfl, rfl⟩
  | PARTIAL_WAKE => simp only [workPhase, hm]; split_ifs <;> exact ⟨rfl, rfl, rfl⟩
  | DEFAULT =>
    simp only [workPhase, hm]
    split_ifs with hf
    · exact ⟨rfl, rfl, rfl⟩
    · exact consolidate_thoughts s s.consolidationQueue

/-- The decide phase never touches the thought queue, audit log or id
counter. -/
theorem decidePhase_thoughts (cfg : Config) (s : DriverState) :
    (decidePhase cfg s).pendingThoughts = s.pendingThoughts ∧
    (decidePhase cfg s).auditLog = s.auditLog ∧
    (decidePhase cfg s).nextThoughtId = s.nextThoughtId := by
  unfold decidePhase; split_ifs <;> simp [transition]

/-- The suppression invariant only reads the thought queue, audit log and id
counter, so it transports along states agreeing there. -/
theorem inv_of_thoughts_eq (tid : Nat) {s s' : DriverState}
    (hp : s'.pendingThoughts = s.pendingThoughts)
    (ha : s'.auditLog = s.auditLog)
    (hn : s'.nextThoughtId = s.nextThoughtId)
    (h : suppressedInv tid s) : suppressedInv tid s' := by
  unfold suppressedInv wfIds at h ⊢
  rw [hp, ha, hn]
  exact h

/-- Creating a fresh thought preserves the suppression invariant: the new id
is ahead of tid. -/
theorem enqueueThought_inv (tid : Nat) (s : DriverState) (spec : ThoughtSpec)
    (h : suppressedInv tid s) :
    suppressedInv tid (enqueueThought s spec) := by
  obtain ⟨⟨hwp, hwa⟩, hlt, hp, he⟩ := h
  refine ⟨⟨?_, ?_⟩, Nat.lt_succ_of_lt hlt, ?_, ?_⟩
  · intro t ht
    rcases List.mem_append.mp ht with h1 | h2
    · exact Nat.lt_succ_of_lt (hwp t h1)
    · rw [List.mem_singleton.mp h2]
      exact Nat.lt_succ_self _
  · intro t ht
    rcases List.mem_append.mp ht with h1 | h2
    · exact Nat.lt_succ_of_lt (hwa t h1)
    · rw [List.mem_singleton.mp h2]
      exact Nat.lt_succ_self _
  · intro t ht htid
    rcases List.mem_append.mp ht with h1 | h2
    · exact hp t h1 htid
    · exfalso
      rw [List.mem_singleton.mp h2] at htid
      exact Nat.lt_irrefl tid (htid ▸ hlt)
  · obtain ⟨t, ht, h1, h2⟩ := he
    exact ⟨t, List.mem_append_left _ ht, h1, h2⟩

/-- Draining one external arrival preserves the suppression invariant. -/
theorem addExternal_inv (tid : Nat) (s : DriverState) (c : String) (i : Nat)
    (h : suppressedInv tid s) :
    suppressedInv tid (addExternalIntrusiveThought s c i) :=
  enqueueThought_inv tid s _ h

/-- Draining all external arrivals preserves the suppression invariant. -/
theorem extFoldl_inv (tid : Nat) (l : List (String × Nat)) :
    ∀ s : DriverState, suppressedInv tid s →
      suppressedInv tid
        (l.foldl (fun st p => addExternalIntrusiveThought st p.1 p.2) s) := by
  induction l with
  | nil => intro s h; exact h
  | cons p t ih =>
    intro s h
    rw [List.foldl_cons]
    exact ih _ (addExternal_inv tid s p.1 p.2 h)

/-- The enqueue phase preserves the suppression invariant. -/
theorem enqueuePhase_inv (tid : Nat) (env : CycleEnv) (s : DriverState)
    (h : suppressedInv tid s) : suppressedInv tid (enqueuePhase env s) := by
  unfold enqueuePhase
  cases env.generated with
  | none => exact extFoldl_inv tid env.external s h
  | some spec =>
    exact enqueueThought_inv tid _ spec (extFoldl_inv tid env.external s h)

/-- Thought injection preserves the suppression invariant: the queue is
drained and the audit log untouched. -/
theorem injectPhase_inv (tid : Nat) (s : DriverState)
    (h : suppressedInv tid s) : suppressedInv tid (injectPhase s) := by
  unfold injectPhase
  split_ifs with hm
  · obtain ⟨⟨hwp, hwa⟩, hlt, hp, he⟩ := h
    exact ⟨⟨fun t ht => absurd ht (List.not_mem_nil t), hwa⟩, hlt,
      fun t ht _ => absurd ht (List.not_mem_nil t), he⟩
  · exact h

/-- One full cycle preserves the suppression invariant. -/
theorem runCycle_inv (tid : Nat) (cfg : Config) (env : CycleEnv)
    (s : DriverState) (h : suppressedInv tid s) :
    suppressedInv tid (runCycle cfg env s) := by
  have h1 : suppressedInv tid (tickPhase s) := h
  have h2 := enqueuePhase_inv tid env _ h1
  have h3 := injectPhase_inv tid _ h2
  have hw := workPhase_thoughts env (injectPhase (enqueuePhase env (tickPhase s)))
  have h4 := inv_of_thoughts_eq tid hw.1 hw.2.1 hw.2.2 h3
  have hd := decidePhase_thoughts cfg
    (workPhase env (injectPhase (enqueuePhase env (tickPhase s))))
  exact inv_of_thoughts_eq tid hd.1 hd.2.1 hd.2.2 h4

/-- Any number of cycles preserves the suppression invariant. -/
theorem runCycles_inv (tid : Nat) (cfg : Config) (envs : List CycleEnv) :
    ∀ s : DriverState, suppressedInv tid s →
      suppressedInv tid (runCycles cfg envs s) := by
  induction envs with
  | nil => intro s h; exact h
  | cons e t ih =>
    intro s h
    exact ih _ (runCycle_inv tid cfg e s h)

/-- Under the suppression invariant, the thought is not among the ids the
next cycle injects. -/
theorem not_injected_of_inv (tid : Nat) (env : CycleEnv) (s : DriverState)
    (h : suppressedInv tid s) : tid ∉ injectedIds env s := by
  unfold injectedIds
  split_ifs with hm
  · intro hmem
    obtain ⟨t, ht, hid⟩ := List.mem_map.mp hmem
    have ht' := List.mem_filter.mp ht
    have hinv : suppressedInv tid (enqueuePhase env (tickPhase s)) :=
      enqueuePhase_inv tid env (tickPhase s) h
    have hsup := hinv.2.2.1 t ht'.1 hid
    have hb := ht'.2
    rw [hsup] at hb
    exact absurd hb (by decide)
  · exact List.not_mem_nil tid

/-- Calling suppress on a thought recorded in the audit log establishes the
suppression invariant. -/
theorem suppress_establishes (tid : Nat) (s : DriverState)
    (hwf : wfIds s) (hmem : ∃ t ∈ s.auditLog, t.id = tid) :
    suppressedInv tid (suppress s tid) := by
  obtain ⟨t0, ht0, hid0⟩ := hmem
  obtain ⟨hwp, hwa⟩ := hwf
  refine ⟨⟨?_, ?_⟩, ?_, ?_, ?_⟩
  · intro t ht
    obtain ⟨x, hx, hfx⟩ := List.mem_map.mp ht
    have hxid : t.id = x.id := by
      rw [← hfx]; unfold setSuppressed; split_ifs <;> rfl
    rw [hxid]
    exact hwp x hx
  · intro t ht
    obtain ⟨x, hx, hfx⟩ := List.mem_map.mp ht
    have hxid : t.id = x.id := by
      rw [← hfx]; unfold setSuppressed; split_ifs <;> rfl
    rw [hxid]
    exact hwa x hx
  · exact hid0 ▸ hwa t0 ht0
  · intro t ht htid
    obtain ⟨x, hx, hfx⟩ := List.mem_map.mp ht
    rw [← hfx] at htid ⊢
    unfold setSuppressed at htid ⊢
    split_ifs at htid ⊢ with hxid
    · rfl
    · exact absurd htid hxid
  · refine ⟨setSuppressed tid t0, List.mem_map_of_mem _ ht0, ?_, ?_⟩
    · unfold setSuppressed; rw [if_pos hid0]; exact hid0
    · unfold setSuppressed; rw [if_pos hid0]

/-- C5: once suppress(thoughtId) has been called on a thought recorded in the
audit log, no subsequent cycle ever injects that thought into WorkingContent
again, yet the thought is never deleted: it stays queryable in the audit log,
marked suppressed. -/
theorem suppress_never_reinjected (cfg : Config) (s : DriverState) (tid : Nat)
    (hwf : wfIds s) (hmem : ∃ t ∈ s.auditLog, t.id = tid) :
    ∀ (envs : List CycleEnv) (env : CycleEnv),
      tid ∉ injectedIds env (runCycles cfg envs (suppress s tid)) ∧
      ∃ t ∈ (runCycles cfg envs (suppress s tid)).auditLog,
        t.id = tid ∧ t.suppressed = true := by
  intro envs env
  have h0 := suppress_establishes tid s hwf hmem
  have h1 := runCycles_inv tid cfg envs _ h0
  exact ⟨not_injected_of_inv tid env _ h1, h1.2.2.2⟩

/-- Witness for C5 at a concrete state holding one pending thought: after
suppressing id 0 and one failing cycle, id 0 is not injected next cycle and
the thought is still in the audit log, suppressed. -/
theorem suppress_never_reinjected_witness :
    wfIds dmnStateWithThought ∧
    0 ∉ injectedIds dmnEnv
      (runCycles dmnConfig [dmnEnvFail] (suppress dmnStateWithThought 0)) ∧
    ∃ t ∈ (runCycles dmnConfig [dmnEnvFail]
        (suppress dmnStateWithThought 0)).auditLog,
      t.id = 0 ∧ t.suppressed = true := by
  have h := suppress_never_reinjected dmnConfig dmnStateWithThought 0
    (by decide) (by decide) [dmnEnvFail] dmnEnv
  exact ⟨by decide, h.1, h.2⟩

/-- Cycle-counter preservation through the enqueue phase. -/
theorem enqueuePhase_cycleCount (env : CycleEnv) (s : DriverState) :
    (enqueuePhase env s).cycleCount = s.cycleCount := by
  have h := congrArg DriverState.cycleCount (enqueuePhase_sans env s)
  simpa [sansThoughts] using h

/-- Failure-streak preservation through the enqueue phase. -/
theorem enqueuePhase_synthFailStreak (env : CycleEnv) (s : DriverState) :
    (enqueuePhase env s).synthFailStreak = s.synthFailStreak := by
  have h := congrArg DriverState.synthFailStreak (enqueuePhase_sans env s)
  simpa [sansThoughts] using h

/-- Failure-log preservation through the enqueue phase. -/
theorem enqueuePhase_failureLog (env : CycleEnv) (s : DriverState) :
    (enqueuePhase env s).failureLog = s.failureLog := by
  have h := congrArg DriverState.failureLog (enqueuePhase_sans env s)
  simpa [sansThoughts] using h

/-- Alert preservation through the enqueue phase. -/
theorem enqueuePhase_fatalAlerts (env : CycleEnv) (s : DriverState) :
    (enqueuePhase env s).fatalAlerts = s.fatalAlerts := by
  have h := congrArg DriverState.fatalAlerts (enqueuePhase_sans env s)
  simpa [sansThoughts] using h

/-- Injection touches neither the counters nor the failure bookkeeping. -/
theorem injectPhase_frame (s : DriverState) :
    (injectPhase s).cycleCount = s.cycleCount ∧
    (injectPhase s).synthFailStreak = s.synthFailStreak ∧
    (injectPhase s).failureLog = s.failureLog ∧
    (injectPhase s).fatalAlerts = s.fatalAlerts := by
  unfold injectPhase; split <;> exact ⟨rfl, rfl, rfl, rfl⟩

/-- While the Synthesizer is scheduled (mode not DEFAULT) and its backend
fails, the work phase logs the failure, grows the consecutive-failure streak
and otherwise only skips the subsystem. -/
theorem workPhase_synthFail (env : CycleEnv) (s : DriverState)
    (hm : s.mode ≠ CognitiveMode.DEFAULT) (hf : env.synthFails = true) :
    (workPhase env s).mode = s.mode ∧
    (workPhase env s).cycleCount = s.cycleCount ∧
    (workPhase env s).synthFailStreak = s.synthFailStreak + 1 ∧
    (workPhase env s).failureLog =
      s.failureLog ++ [(s.cycleCount, Subsystem.synthesizer)] ∧
    (workPhase env s).fatalAlerts = s.fatalAlerts := by
  cases hmode : s.mode with
  | ACTIVE => simp [workPhase, hmode, hf]
  | PARTIAL_WAKE => simp [workPhase, hmode, hf]
  | DEFAULT => exact absurd hmode hm

/-- The decide phase never touches the cycle counter, the failure streak or
the failure log. -/
theorem decidePhase_frame (cfg : Config) (s : DriverState) :
    (decidePhase cfg s).cycleCount = s.cycleCount ∧
    (decidePhase cfg s).synthFailStreak = s.synthFailStreak ∧
    (decidePhase cfg s).failureLog = s.failureLog := by
  unfold decidePhase; split_ifs <;> simp [transition]

/-- Three consecutive Synthesizer failures reached: the decide phase forces
DEFAULT and raises the fatal alert. -/
theorem decidePhase_force (cfg : Config) (s : DriverState)
    (hm : s.mode ≠ CognitiveMode.DEFAULT) (hs : 3 ≤ s.synthFailStreak) :
    (decidePhase cfg s).mode = CognitiveMode.DEFAULT ∧
    (decidePhase cfg s).fatalAlerts =
      s.fatalAlerts ++ [Subsystem.synthesizer] := by
  unfold decidePhase
  rw [if_pos ⟨hm, hs⟩]
  exact ⟨rfl, rfl⟩

/-- Below three consecutive failures and away from the consolidation cadence,
the decide phase neither enters DEFAULT nor raises an alert. -/
theorem decidePhase_noforce (cfg : Config) (s : DriverState)
    (hm : s.mode ≠ CognitiveMode.DEFAULT) (hs : s.synthFailStreak < 3)
    (hc : ¬(s.mode = CognitiveMode.ACTIVE ∧
            s.cycleCount % cfg.consolidationCadence = 0)) :
    (decidePhase cfg s).mode ≠ CognitiveMode.DEFAULT ∧
    (decidePhase cfg s).fatalAlerts = s.fatalAlerts := by
  unfold decidePhase
  rw [if_neg (fun h => Nat.lt_irrefl _ (Nat.lt_of_lt_of_le hs h.2)),
      if_neg (fun h : s.mode = CognitiveMode.DEFAULT ∧ _ => hm h.1),
      if_neg hc]
  split_ifs with h4 h5
  · exact ⟨by simp [transition], rfl⟩
  · exact ⟨by simp [transition], rfl⟩
  · exact ⟨hm, rfl⟩

/-- One cycle under a failing Synthesizer backend: the cycle completes, the
failure is logged and the subsystem skipped; when this is the third
consecutive failure the Driver forces DEFAULT and raises the fatal alert,
otherwise the mode stays out of DEFAULT (away from the consolidation cadence)
and no alert is raised. -/
theorem runCycle_synthFail (cfg : Config) (env : CycleEnv) (s : DriverState)
    (hm : s.mode ≠ CognitiveMode.DEFAULT) (hf : env.synthFails = true) :
    (runCycle cfg env s).cycleCount = s.cycleCount + 1 ∧
    (runCycle cfg env s).synthFailStreak = s.synthFailStreak + 1 ∧
    (runCycle cfg env s).failureLog =
      s.failureLog ++ [(s.cycleCount + 1, Subsystem.synthesizer)] ∧
    (2 ≤ s.synthFailStreak →
      (runCycle cfg env s).mode = CognitiveMode.DEFAULT ∧
      (runCycle cfg env s).fatalAlerts =
        s.fatalAlerts ++ [Subsystem.synthesizer]) ∧
    (s.synthFailStreak < 2 →
      (s.cycleCount + 1) % cfg.consolidationCadence ≠ 0 →
      (runCycle cfg env s).mode ≠ CognitiveMode.DEFAULT ∧
      (runCycle cfg env s).fatalAlerts = s.fatalAlerts) := by
  unfold runCycle
  have hYm : (injectPhase (enqueuePhase env (tickPhase s))).mode = s.mode := by
    rw [injectPhase_mode, enqueuePhase_mode]
    rfl
  have hYc : (injectPhase (enqueuePhase env (tickPhase s))).cycleCount =
      s.cycleCount + 1 := by
    rw [(injectPhase_frame _).1, enqueuePhase_cycleCount]
    rfl
  have hYs : (injectPhase (enqueuePhase env (tickPhase s))).synthFailStreak =
      s.synthFailStreak := by
    rw [(injectPhase_frame _).2.1, enqueuePhase_synthFailStreak]
    rfl
  have hYf : (injectPhase (enqueuePhase env (tickPhase s))).failureLog =
      s.failureLog := by
    rw [(injectPhase_frame _).2.2.1, enqueuePhase_failureLog]
    rfl
  have hYa : (injectPhase (enqueuePhase env (tickPhase s))).fatalAlerts =
      s.fatalAlerts := by
    rw [(injectPhase_frame _).2.2.2, enqueuePhase_fatalAlerts]
    rfl
  have hw := workPhase_synthFail env (injectPhase (enqueuePhase env (tickPhase s)))
    (by rw [hYm]; exact hm) hf
  have hXm := hw.1.trans hYm
  have hXc := hw.2.1.trans hYc
  have hXs : (workPhase env (injectPhase (enqueuePhase env (tickPhase s)))).synthFailStreak =
      s.synthFailStreak + 1 := by rw [hw.2.2.1, hYs]
  have hXf : (workPhase env (injectPhase (enqueuePhase env (tickPhase s)))).failureLog =
      s.failureLog ++ [(s.cycleCount + 1, Subsystem.synthesizer)] := by
    rw [hw.2.2.2.1, hYf, hYc]
  have hXa := hw.2.2.2.2.trans hYa
  have hframe := decidePhase_frame cfg
    (workPhase env (injectPhase (enqueuePhase env (tickPhase s))))
  refine ⟨?_, ?_, ?_, ?_, ?_⟩
  · rw [hframe.1, hXc]
  · rw [hframe.2.1, hXs]
  · rw [hframe.2.2, hXf]
  · intro h2
    have hforce := decidePhase_force cfg
      (workPhase env (injectPhase (enqueuePhase env (tickPhase s))))
      (by rw [hXm]; exact hm) (by rw [hXs]; omega)
    refine ⟨hforce.1, ?_⟩
    rw [hforce.2, hXa]
  · intro h2 hc
    have hnf := decidePhase_noforce cfg
      (workPhase env (injectPhase (enqueuePhase env (tickPhase s))))
      (by rw [hXm]; exact hm) (by rw [hXs]; omega)
      (by
        rintro ⟨hma, hcc⟩
        rw [hXc] at hcc
        exact hc hcc)
    refine ⟨hnf.1, ?_⟩
    rw [hnf.2, hXa]

/-- C6: a failing downstream component never halts the mode loop — the cycle
completes, the failure is caught and logged, the subsystem skipped for that
cycle — and when the Synthesizer fails in three consecutive cycles the Driver
forces a transition to DEFAULT and raises a fatal alert to the external
observer, with all three failures logged. -/
theorem driver_failure_isolation (cfg : Config) (s : DriverState)
    (e1 e2 e3 : CycleEnv)
    (hm : s.mode ≠ CognitiveMode.DEFAULT)
    (h0 : s.synthFailStreak = 0)
    (hf1 : e1.synthFails = true) (hf2 : e2.synthFails = true)
    (hf3 : e3.synthFails = true)
    (hc1 : (s.cycleCount + 1) % cfg.consolidationCadence ≠ 0)
    (hc2 : (s.cycleCount + 2) % cfg.consolidationCadence ≠ 0) :
    (∀ (env : CycleEnv) (s' : DriverState),
      env.synthFails = true → s'.mode ≠ CognitiveMode.DEFAULT →
      (runCycle cfg env s').cycleCount = s'.cycleCount + 1 ∧
      (runCycle cfg env s').failureLog =
        s'.failureLog ++ [(s'.cycleCount + 1, Subsystem.synthesizer)]) ∧
    (runCycle cfg e3 (runCycle cfg e2 (runCycle cfg e1 s))).mode =
      CognitiveMode.DEFAULT ∧
    Subsystem.synthesizer ∈
      (runCycle cfg e3 (runCycle cfg e2 (runCycle cfg e1 s))).fatalAlerts ∧
    (runCycle cfg e3 (runCycle cfg e2 (runCycle cfg e1 s))).failureLog =
      s.failureLog ++
        [(s.cycleCount + 1, Subsystem.synthesizer),
         (s.cycleCount + 2, Subsystem.synthesizer),
         (s.cycleCount + 3, Subsystem.synthesizer)] := by
  have h1 := runCycle_synthFail cfg e1 s hm hf1
  have hs1m : (runCycle cfg e1 s).mode ≠ CognitiveMode.DEFAULT :=
    (h1.2.2.2.2 (by omega) hc1).1
  have hs1c : (runCycle cfg e1 s).cycleCount = s.cycleCount + 1 := h1.1
  have hs1s : (runCycle cfg e1 s).synthFailStreak = 1 := by
    rw [h1.2.1, h0]
  have h2 := runCycle_synthFail cfg e2 (runCycle cfg e1 s) hs1m hf2
  have hs2m : (runCycle cfg e2 (runCycle cfg e1 s)).mode ≠
      CognitiveMode.DEFAULT := by
    refine (h2.2.2.2.2 (by omega) ?_).1
    rw [hs1c]
    exact hc2
  have hs2c : (runCycle cfg e2 (runCycle cfg e1 s)).cycleCount =
      s.cycleCount + 2 := by
    rw [h2.1, hs1c]
  have hs2s : (runCycle cfg e2 (runCycle cfg e1 s)).synthFailStreak = 2 := by
    rw [h2.2.1, hs1s]
  have h3 := runCycle_synthFail cfg e3 (runCycle cfg e2 (runCycle cfg e1 s))
    hs2m hf3
  have hforce := h3.2.2.2.1 (by omega)
  refine ⟨?_, hforce.1, ?_, ?_⟩
  · intro env s' hf hm'
    have h := runCycle_synthFail cfg env s' hm' hf
    exact ⟨h.1, h.2.2.1⟩
  · rw [hforce.2]
    exact List.mem_append_right _ (List.mem_singleton_self _)
  · rw [h3.2.2.1, hs2c, h2.2.2.1, hs1c, h1.2.2.1]
    simp [List.append_assoc]

/-- Witness for C6 from the initial state with a thrice-failing Synthesizer
backend under the concrete configuration. -/
theorem driver_failure_isolation_witness :
    initState.mode ≠ CognitiveMode.DEFAULT ∧
    initState.synthFailStreak = 0 ∧
    (runCycle dmnConfig dmnEnvFail
      (runCycle dmnConfig dmnEnvFail
        (runCycle dmnConfig dmnEnvFail initState))).mode =
      CognitiveMode.DEFAULT ∧
    Subsystem.synthesizer ∈
      (runCycle dmnConfig dmnEnvFail
        (runCycle dmnConfig dmnEnvFail
          (runCycle dmnConfig dmnEnvFail initState))).fatalAlerts := by
  have h := driver_failure_isolation dmnConfig initState
    dmnEnvFail dmnEnvFail dmnEnvFail
    (by decide) (by decide) (by decide) (by decide) (by decide)
    (by decide) (by decide)
  exact ⟨by decide, by decide, h.2.1, h.2.2.1⟩

end DMNTheorems
